import Mathlib

/-!
Verification development for the EmbyWatchAccelerator plugin
(`plugins.v2/embywatchaccelerator/__init__.py`).

Shallow embedding conventions:
* instants are `Int` minutes since 1970-01-01T00:00:00Z (UTC);
* `datetime.min` (the sentinel the code uses for unknown play times) is
  modelled by `dtMin`, below every timestamp the plugin ever parses;
* a time zone (`zoneinfo.ZoneInfo`) is modelled by its fixed UTC offset in
  minutes (the claims under study use UTC; DST transitions are not modelled);
* Python `timedelta.days` is floor division of the minute difference by 1440
  (`Int.fdiv`), matching Python's floor semantics for negative deltas;
* loosely-typed dict entries become structures with `Option` fields, where
  `none` models both "key absent" and "value unparseable" exactly where the
  code collapses the two (noted per definition);
* Python dicts keyed by strings become insertion-ordered association lists
  with unique keys, with `setKey` (replace in place or append) and
  `lookupKey` mirroring `dict.__setitem__` / `dict.get`.
-/

/-- Sentinel for `datetime.datetime.min`: strictly below every parsed
timestamp (all real timestamps handled by the plugin are positive minutes
since the 1970 epoch). -/
def dtMin : Int := 0

/-- Days since 1970-01-01 of a civil date (proleptic Gregorian), the
arithmetic `datetime.date` provides to the plugin. -/
def daysFromCivil (y : Int) (m d : Nat) : Int :=
  let y' : Int := if m ≤ 2 then y - 1 else y
  let era : Int := Int.fdiv y' 400
  let yoe : Int := y' - era * 400
  let mp : Int := if m > 2 then (m : Int) - 3 else (m : Int) + 9
  let doy : Int := Int.fdiv (153 * mp + 2) 5 + (d : Int) - 1
  let doe : Int := yoe * 365 + Int.fdiv yoe 4 - Int.fdiv yoe 100 + doy
  era * 146097 + doe - 719468

/-- A date-only value (TMDB air dates have no time-of-day). -/
structure CivilDate where
  y : Int
  m : Nat
  d : Nat
deriving DecidableEq, Repr

/-- Python truthiness of an optional string (`None` and `""` are falsy). -/
def pyTruthyStr : Option String → Bool
  | some s => !(s == "")
  | none => false

/-- Python `a or b` on optional strings. -/
def pyOrStr (a b : Option String) : Option String :=
  if pyTruthyStr a then a else b

/-- Python truthiness of an optional integer (`None` and `0` are falsy). -/
def pyTruthyNat : Option Nat → Bool
  | some n => !(n == 0)
  | none => false

/-- Python `a or b` on optional naturals (episode / season numbers). -/
def pyOrNat (a b : Option Nat) : Option Nat :=
  if pyTruthyNat a then a else b

/-- `int(x) if x else None` on an optional natural. -/
def pyNatOpt : Option Nat → Option Nat
  | some n => if n = 0 then none else some n
  | none => none

/-- Association-list write with Python-dict semantics: replace the existing
binding in place, else append at the end (insertion order preserved). -/
def setKey {β : Type} : List (String × β) → String → β → List (String × β)
  | [], k, v => [(k, v)]
  | kv :: t, k, v => if kv.1 = k then (k, v) :: t else kv :: setKey t k v

/-- Association-list read (`dict.get`). -/
def lookupKey {β : Type} : List (String × β) → String → Option β
  | [], _ => none
  | kv :: t, k => if kv.1 = k then some kv.2 else lookupKey t k

/-- Python `str.strip()` (whitespace from both ends), written by structural
recursion over the character list so it evaluates inside the kernel. -/
def pyStrip (s : String) : String :=
  ⟨((s.data.dropWhile Char.isWhitespace).reverse.dropWhile
      Char.isWhitespace).reverse⟩

/-- Python `str.lower()` (ASCII case folding, which is all the code compares
against), structurally recursive for the same reason. -/
def pyLower (s : String) : String :=
  ⟨s.data.map Char.toLower⟩

/-- `_normalize_user_label`: empty → "未知用户", case-insensitive "system" →
"最近入库", otherwise the stripped label itself. -/
def normalizeUserLabel (userName : Option String) : String :=
  let raw := pyStrip (userName.getD "")
  if raw = "" then "未知用户"
  else if pyLower raw = "system" then "最近入库"
  else raw

/-- One raw per-episode event as read from the media server (the Emby-cased
dict keys `SeriesId`, `ParentIndexNumber`, `IndexNumber`, `SeriesName`,
`Name`, `UserData.LastPlayedDate`, `UserData.PlaybackPositionTicks`,
`_mp_user`).  `lastPlayed = none` models both an absent and an unparseable
`LastPlayedDate`, which the mergers treat alike (kept, not dropped). -/
structure RawItem where
  seriesId : Option String := none
  season : Option Nat := none
  episode : Option Nat := none
  seriesName : Option String := none
  name : Option String := none
  lastPlayed : Option Int := none
  playbackTicks : Int := 0
  user : Option String := none
deriving DecidableEq, Repr

/-- One merged per-(series, season) observation, as built by the mergers
(snake_case dict keys `series_id`, `season`, `episode`, `series_name`,
`last_played`, `playback_ticks`, `user`). -/
structure Observation where
  series_id : String := ""
  season : Option Nat := none
  episode : Option Nat := none
  series_name : Option String := none
  last_played : Int := dtMin
  playback_ticks : Int := 0
  user : Option String := none
deriving DecidableEq, Repr

/-- `f"{series_id}:{season}"` for a raw event that passed the identity
guard. -/
def rawItemKey (item : RawItem) : String :=
  item.seriesId.getD "" ++ ":" ++ toString (item.season.getD 0)

/-- Identity guard shared by all three mergers: events missing `SeriesId`
or with a falsy season are dropped. -/
def rawItemValid (item : RawItem) : Bool :=
  pyTruthyStr item.seriesId && pyTruthyNat item.season

/-- Recency-window drop for the resume/history mergers: drops an event whose
parsed `last_played` is more than `resumeDays` whole days old; events with
no parseable `last_played` are kept. `resumeDays = 0` disables the window. -/
def windowDrops (now resumeDays : Int) (item : RawItem) : Bool :=
  match item.lastPlayed with
  | some lp => decide (resumeDays ≠ 0) && decide (Int.fdiv (now - lp) 1440 > resumeDays)
  | none => false

/-- The observation `_merge_resume_series` records for one event. -/
def resumeObsOf (item : RawItem) : Observation :=
  { series_id := item.seriesId.getD ""
    season := pyNatOpt item.season
    episode := pyNatOpt item.episode
    series_name := pyOrStr item.seriesName item.name
    last_played := item.lastPlayed.getD dtMin
    playback_ticks := item.playbackTicks
    user := item.user }

/-- One step of `_merge_resume_series`: replace the per-key record when the
event has a strictly later `last_played`, or an equal `last_played` and
strictly larger `playback_ticks`. -/
def resumeMergeStep (now resumeDays : Int) (m : List (String × Observation))
    (item : RawItem) : List (String × Observation) :=
  if !rawItemValid item then m
  else if windowDrops now resumeDays item then m
  else
    let key := rawItemKey item
    let record := lookupKey m key
    let recordLp := (record.map (·.last_played)).getD dtMin
    let recordTicks := (record.map (·.playback_ticks)).getD 0
    let cur := item.lastPlayed.getD dtMin
    if record.isNone || decide (cur > recordLp)
        || (decide (cur = recordLp) && decide (item.playbackTicks > recordTicks)) then
      setKey m key (resumeObsOf item)
    else m

/-- The `series_map` built by `_merge_resume_series`. -/
def mergeResumeMap (now resumeDays : Int) (items : List RawItem) :
    List (String × Observation) :=
  items.foldl (resumeMergeStep now resumeDays) []

/-- `_merge_resume_series`: deduplicated observations, one per
(series, season) key. -/
def mergeResumeSeries (now resumeDays : Int) (items : List RawItem) :
    List Observation :=
  (mergeResumeMap now resumeDays items).map Prod.snd

/-- The observation `_merge_history_series` records for one event. -/
def historyObsOf (item : RawItem) : Observation :=
  { series_id := item.seriesId.getD ""
    season := pyNatOpt item.season
    episode := pyNatOpt item.episode
    series_name := pyOrStr item.seriesName item.name
    last_played := item.lastPlayed.getD dtMin
    playback_ticks := item.playbackTicks
    user := item.user }

/-- One step of `_merge_history_series`: replace the per-key record whenever
the event's `last_played` is greater *or equal* (playback ticks are never
compared). -/
def historyMergeStep (now resumeDays : Int) (m : List (String × Observation))
    (item : RawItem) : List (String × Observation) :=
  if !rawItemValid item then m
  else if windowDrops now resumeDays item then m
  else
    let key := rawItemKey item
    let record := lookupKey m key
    let recordLp := (record.map (·.last_played)).getD dtMin
    let cur := item.lastPlayed.getD dtMin
    if record.isNone || decide (cur ≥ recordLp) then
      setKey m key (historyObsOf item)
    else m

/-- `_merge_history_series`. -/
def mergeHistorySeries (now resumeDays : Int) (items : List RawItem) :
    List Observation :=
  (items.foldl (historyMergeStep now resumeDays) []).map Prod.snd

/-- The observation `_merge_recent_added_series` records (progress fields are
forced: `last_played = datetime.min`, `playback_ticks = 0`, user label
"最近入库"). -/
def recentAddedObsOf (item : RawItem) : Observation :=
  { series_id := item.seriesId.getD ""
    season := pyNatOpt item.season
    episode := pyNatOpt item.episode
    series_name := pyOrStr item.seriesName item.name
    last_played := dtMin
    playback_ticks := 0
    user := some "最近入库" }

/-- One step of `_merge_recent_added_series`: the last event for a key always
wins (unconditional dict overwrite). -/
def recentAddedMergeStep (m : List (String × Observation)) (item : RawItem) :
    List (String × Observation) :=
  if !rawItemValid item then m
  else setKey m (rawItemKey item) (recentAddedObsOf item)

/-- `_merge_recent_added_series`. -/
def mergeRecentAddedSeries (items : List RawItem) : List Observation :=
  (items.foldl recentAddedMergeStep []).map Prod.snd

/-- A persisted candidate-pool entry.  Optional fields model "dict key
absent" (and, for parsed timestamps, "present but unparseable", where the
code collapses the two).  Timestamps are minutes since the epoch. -/
structure CandidateEntry where
  series_id : Option String := none
  series_name : Option String := none
  season : Option Nat := none
  episode : Option Nat := none
  user : Option String := none
  last_played : Option Int := none
  playback_ticks : Int := 0
  last_seen_at : Option Int := none
  last_track_at : Option Int := none
  last_track_next_episode : Option String := none
  last_track_result : Option String := none
  next_track_at : Option String := none
  learned_hit_minutes : Option Int := none
  pinned : Bool := false
deriving DecidableEq, Repr

/-- One step of `_upsert_candidate_pool_from_resume`: the entry at the key is
*rebuilt* from a fixed field set; any stored field outside that set
(`learned_hit_minutes`, `last_track_result`, `next_track_at`, ...) is
dropped because the replacement dict never mentions it. -/
def upsertResumeStep (now : Int) (pool : List (String × CandidateEntry))
    (item : Observation) : List (String × CandidateEntry) :=
  let sid := pyStrip item.series_id
  match item.season with
  | none => pool
  | some sea =>
    if sid = "" then pool
    else
      let key := sid ++ ":" ++ toString sea
      let existing := (lookupKey pool key).getD {}
      setKey pool key
        { series_id := some sid
          series_name := pyOrStr item.series_name existing.series_name
          season := some sea
          episode := pyOrNat item.episode existing.episode
          user := some (normalizeUserLabel (pyOrStr item.user existing.user))
          last_played :=
            if existing.last_played.isSome then existing.last_played
            else some item.last_played
          playback_ticks :=
            if item.playback_ticks ≠ 0 then item.playback_ticks
            else existing.playback_ticks
          last_seen_at := some now
          last_track_at := existing.last_track_at
          last_track_next_episode := existing.last_track_next_episode
          pinned := existing.pinned }

/-- `_upsert_candidate_pool_from_resume`. -/
def upsertFromResume (now : Int) (pool : List (String × CandidateEntry))
    (items : List Observation) : List (String × CandidateEntry) :=
  items.foldl (upsertResumeStep now) pool

/-- One step of `_upsert_candidate_pool_from_history`: like the resume
upsert but the *existing* entry wins for `episode`, `user`, `last_played`
and `playback_ticks`. -/
def upsertHistoryStep (now : Int) (pool : List (String × CandidateEntry))
    (item : Observation) : List (String × CandidateEntry) :=
  let sid := pyStrip item.series_id
  match item.season with
  | none => pool
  | some sea =>
    if sid = "" then pool
    else
      let key := sid ++ ":" ++ toString sea
      let existing := (lookupKey pool key).getD {}
      setKey pool key
        { series_id := some sid
          series_name := pyOrStr item.series_name existing.series_name
          season := some sea
          episode := pyOrNat existing.episode item.episode
          user := some (normalizeUserLabel (pyOrStr existing.user item.user))
          last_played :=
            if existing.last_played.isSome then existing.last_played
            else some item.last_played
          playback_ticks :=
            if existing.playback_ticks ≠ 0 then existing.playback_ticks
            else item.playback_ticks
          last_seen_at := some now
          last_track_at := existing.last_track_at
          last_track_next_episode := existing.last_track_next_episode
          pinned := existing.pinned }

/-- `_upsert_candidate_pool_from_history`. -/
def upsertFromHistory (now : Int) (pool : List (String × CandidateEntry))
    (items : List Observation) : List (String × CandidateEntry) :=
  items.foldl (upsertHistoryStep now) pool

/-- One step of `_upsert_candidate_pool_from_recent_added` (same shape as the
history upsert). -/
def upsertRecentAddedStep (now : Int) (pool : List (String × CandidateEntry))
    (item : Observation) : List (String × CandidateEntry) :=
  upsertHistoryStep now pool item

/-- `_upsert_candidate_pool_from_recent_added`. -/
def upsertFromRecentAdded (now : Int) (pool : List (String × CandidateEntry))
    (items : List Observation) : List (String × CandidateEntry) :=
  items.foldl (upsertRecentAddedStep now) pool

/-- `_prune_candidate_pool`: a key in the pin registry is always kept and
re-tagged `pinned := true`; otherwise the entry is dropped exactly when its
`last_seen_at` is more than `max retentionDays 1` whole days old (a missing
or unparseable `last_seen_at` counts as "seen now"). -/
def pruneKeep (now retentionDays : Int) (pinSet : List String)
    (kv : String × CandidateEntry) : Option (String × CandidateEntry) :=
  if kv.1 ∈ pinSet then some (kv.1, { kv.2 with pinned := true })
  else if Int.fdiv (now - kv.2.last_seen_at.getD now) 1440 > max retentionDays 1
  then none
  else some kv

def pruneCandidatePool (now retentionDays : Int) (pinSet : List String)
    (pool : List (String × CandidateEntry)) : List (String × CandidateEntry) :=
  pool.filterMap (pruneKeep now retentionDays pinSet)

/-- `_apply_pins_to_pool`: overwrite every entry's `pinned` flag with its
pin-registry membership. -/
def applyPinsToPool (pinSet : List String)
    (pool : List (String × CandidateEntry)) : List (String × CandidateEntry) :=
  pool.map fun kv => (kv.1, { kv.2 with pinned := kv.1 ∈ pinSet })

/-- `_candidate_tier`: hot ≤ 7 days, warm ≤ 30 days, else cold; no
resolvable `last_seen_at` classifies cold. -/
inductive Tier
  | hot
  | warm
  | cold
deriving DecidableEq, Repr

/-- `_candidate_tier` on a parsed `last_seen_at`. -/
def candidateTier (now : Int) (lastSeen : Option Int) : Tier :=
  match lastSeen with
  | none => .cold
  | some ls =>
    let days := Int.fdiv (now - ls) 1440
    if days ≤ 7 then .hot
    else if days ≤ 30 then .warm
    else .cold

/-- Airtime-gate configuration surface (the plugin attributes the gate
reads).  The time zone is its fixed UTC offset in minutes. -/
structure GateConfig where
  enableAirtimeGate : Bool := true
  airtimeBufferMinutes : Int := 30
  tzOffsetMinutes : Int := 480
  accelerateIntervalMinutes : Int := 10
  accelerateWarmIntervalMinutes : Int := 180
  accelerateColdIntervalHours : Int := 24
deriving DecidableEq, Repr

/-- `_tier_interval_minutes` (including the `or`-defaults and `max(-, 1)`
clamps). -/
def tierIntervalMinutes (cfg : GateConfig) (tier : Option Tier) : Int :=
  match tier with
  | some .warm =>
    max (if cfg.accelerateWarmIntervalMinutes = 0 then 180
         else cfg.accelerateWarmIntervalMinutes) 1
  | some .cold =>
    (max (if cfg.accelerateColdIntervalHours = 0 then 24
          else cfg.accelerateColdIntervalHours) 1) * 60
  | _ =>
    max (if cfg.accelerateIntervalMinutes = 0 then 10
         else cfg.accelerateIntervalMinutes) 1

/-- `_next_track_time_by_interval`. -/
def nextTrackTimeByInterval (cfg : GateConfig) (tier : Option Tier)
    (lastTrackUtc : Option Int) : Option Int :=
  lastTrackUtc.map (· + tierIntervalMinutes cfg tier)

/-- TMDB next-episode hint (`mediainfo.next_episode_to_air`); `airDate` is
the parsed date-only air date (`none`: missing, empty or unparseable). -/
structure NextEpisodeHint where
  seasonNumber : Option Nat := none
  episodeNumber : Option Nat := none
  airDate : Option CivilDate := none
deriving DecidableEq, Repr

/-- Two-digit zero padding (`%m` / `%d` in an ISO date). -/
def pad2 (n : Nat) : String :=
  if n < 10 then "0" ++ toString n else toString n

/-- The ISO `YYYY-MM-DD` rendering of a civil date (TMDB air-date strings
carry four-digit years). -/
def civilDateStr (dte : CivilDate) : String :=
  toString dte.y ++ "-" ++ pad2 dte.m ++ "-" ++ pad2 dte.d

/-- `f"{x or '-'}"` for a season/episode number. -/
def fmtOptNat : Option Nat → String
  | some n => if n = 0 then "-" else toString n
  | none => "-"

/-- `f"{air_date or '-'}"`. -/
def fmtOptDate : Option CivilDate → String
  | some dte => civilDateStr dte
  | none => "-"

/-- The next-episode fingerprint
`f"{season_number or '-'}:{episode_number or '-'}:{air_date or '-'}"`. -/
def nextEpisodeKey (ep : NextEpisodeHint) : String :=
  fmtOptNat ep.seasonNumber ++ ":" ++ fmtOptNat ep.episodeNumber ++ ":"
    ++ fmtOptDate ep.airDate

/-- Where the learned offset came from.  The Python code threads this as a
substring of the free-text due note and later tests
`"default_day_start" in due_note`; the three tags are pairwise distinct and
appear verbatim in that note, so tag equality models the substring test
exactly. -/
inductive OffsetNote
  | candidatePool
  | downloadHistory
  | defaultDayStart
deriving DecidableEq, Repr

/-- `_resolve_learned_hit_offset_minutes`: a stored `learned_hit_minutes`
in 0..1439 wins; else the download-history offset (an external collaborator,
passed in as `histOffset`); else 0 with the `default_day_start` tag. -/
def resolveLearnedHitOffsetMinutes (learned histOffset : Option Int) :
    Int × OffsetNote :=
  match learned with
  | some v =>
    if 0 ≤ v ∧ v ≤ 1439 then (v, .candidatePool)
    else
      match histOffset with
      | some h => (h, .downloadHistory)
      | none => (0, .defaultDayStart)
  | none =>
    match histOffset with
    | some h => (h, .downloadHistory)
    | none => (0, .defaultDayStart)

/-- `_resolve_next_episode_due_at_utc`: midnight of the air date in the
configured zone, plus the learned offset, plus the buffer, converted to
UTC. -/
def resolveNextEpisodeDueAtUtc (cfg : GateConfig) (nextEp : NextEpisodeHint)
    (learned histOffset : Option Int) : Option (Int × OffsetNote) :=
  match nextEp.airDate with
  | none => none
  | some dte =>
    let off := resolveLearnedHitOffsetMinutes learned histOffset
    some (daysFromCivil dte.y dte.m dte.d * 1440
            + (off.1 + cfg.airtimeBufferMinutes) - cfg.tzOffsetMinutes,
          off.2)

/-- The deny/allow reason labels of `_should_run_track_by_airtime_gate`
(modelling its free-text reasons). -/
inductive GateReason
  | beforeDefaultInterval
  | airtimeGateDisabled
  | beforeDueWindow
  | beforeDefaultIntervalDayStart
  | dayStartByDefaultInterval
  | windowAlreadyServiced
  | dueWindowReached
  | noAirDateBeforeInterval
  | noAirDateByDefaultInterval
deriving DecidableEq, Repr

/-- The `(allow, reason, next_due_utc)` result of the airtime gate. -/
structure GateResult where
  allow : Bool
  reason : GateReason
  nextDueUtc : Option Int
deriving DecidableEq, Repr

/-- `_should_run_track_by_airtime_gate`. -/
def shouldRunTrackByAirtimeGate (cfg : GateConfig) (tier : Option Tier)
    (nowUtc : Int) (nextEp : NextEpisodeHint) (lastTrackAtUtc : Option Int)
    (lastTrackNextEpisode : Option String) (learned histOffset : Option Int) :
    GateResult :=
  let nextKey := nextEpisodeKey nextEp
  let lastTrackKey := pyStrip (lastTrackNextEpisode.getD "")
  if !cfg.enableAirtimeGate then
    match nextTrackTimeByInterval cfg tier lastTrackAtUtc with
    | some t =>
      if nowUtc < t then ⟨false, .beforeDefaultInterval, some t⟩
      else ⟨true, .airtimeGateDisabled, some t⟩
    | none => ⟨true, .airtimeGateDisabled, none⟩
  else
    match resolveNextEpisodeDueAtUtc cfg nextEp learned histOffset with
    | some (dueAt, note) =>
      if nowUtc < dueAt then ⟨false, .beforeDueWindow, some dueAt⟩
      else if note = .defaultDayStart then
        match nextTrackTimeByInterval cfg tier lastTrackAtUtc with
        | some t =>
          if nowUtc < t then ⟨false, .beforeDefaultIntervalDayStart, some t⟩
          else ⟨true, .dayStartByDefaultInterval, some t⟩
        | none => ⟨true, .dayStartByDefaultInterval, none⟩
      else
        match lastTrackAtUtc with
        | some lt =>
          if lastTrackKey = nextKey ∧ dueAt ≤ lt then
            ⟨false, .windowAlreadyServiced, some dueAt⟩
          else ⟨true, .dueWindowReached, some dueAt⟩
        | none => ⟨true, .dueWindowReached, some dueAt⟩
    | none =>
      match nextTrackTimeByInterval cfg tier lastTrackAtUtc with
      | some t =>
        if nowUtc < t then ⟨false, .noAirDateBeforeInterval, some t⟩
        else ⟨true, .noAirDateByDefaultInterval, some t⟩
      | none => ⟨true, .noAirDateByDefaultInterval, none⟩

/-- `_update_learned_hit_minutes` on the stored value (the code also tags
`learned_hit_source`, which carries no further information): write the local
minute-of-day of the confirmed download only when earlier than, or replacing
an absent (or unparseable, collapsed to `none`) previous value. -/
def updateLearnedHitMinutes (nowMinutes : Int) (old : Option Int) :
    Option Int :=
  match old with
  | none => some nowMinutes
  | some o => if nowMinutes < o then some nowMinutes else some o

/-- Persisted plugin state plus the module-level single-flight lock: the
per-server candidate pools (`track_candidate_pool`), the pin registry
(`track_candidate_pins`), the log store (`logs`) and the last run summary
(`last_stats`, abstracted to its rendered text). -/
structure PluginState where
  lockHeld : Bool := false
  pools : List (String × List (String × CandidateEntry)) := []
  pins : List (String × List String) := []
  logs : List String := []
  lastStats : Option String := none
deriving DecidableEq, Repr

/-- What one guarded run body does: the state it reaches and the exception
it raised, if any (external collaborators may throw at any point). -/
structure BodyResult where
  state : PluginState
  exc : Option String := none

/-- Outcome of one `_process` invocation. -/
inductive RunOutcome
  | notEnabled
  | busy
  | completed
  | raised
deriving DecidableEq, Repr

/-- `_append_log`: append one line, then keep only the last `maxRecords`
lines (the `or 200` config default keeps `maxRecords` positive). -/
def appendLogTrunc (maxRecords : Nat) (logs : List String) (line : String) :
    List String :=
  let l := logs ++ [line]
  if maxRecords ≠ 0 ∧ l.length > maxRecords then l.drop (l.length - maxRecords)
  else l

/-- `_process`: the single-flight entry point.  A non-blocking acquire that
fails logs a busy line (persisted via `_append_log`) and returns without
running the body; an acquire that succeeds runs the body inside
`try ... finally`, and the `finally` block saves `last_stats`, appends the
end-of-run log line and releases the lock whether or not the body raised. -/
def processEntry (enabled : Bool) (maxRecords : Nat)
    (busyLine endLine statsLine : String)
    (body : PluginState → BodyResult) (st : PluginState) :
    RunOutcome × PluginState :=
  if !enabled then (.notEnabled, st)
  else if st.lockHeld then
    (.busy, { st with logs := appendLogTrunc maxRecords st.logs busyLine })
  else
    let r := body { st with lockHeld := true }
    let final : PluginState :=
      { r.state with
          lastStats := some statsLine
          logs := appendLogTrunc maxRecords r.state.logs endLine
          lockHeld := false }
    (if r.exc.isSome then .raised else .completed, final)

/-- One parsed pool-management rule (`server:series:season` or
`series:season`, the latter with wildcard server `"*"`). -/
structure RemoveRule where
  server : String := "*"
  seriesId : String := ""
  season : Int := 0
deriving DecidableEq, Repr

/-- `_match_candidate_remove_rule`. -/
def matchCandidateRemoveRule (serverName seriesId : String) (season : Int)
    (rules : List RemoveRule) : Bool :=
  rules.any fun r =>
    r.seriesId == seriesId && r.season == season &&
      (let rs := pyLower (pyStrip (if r.server = "" then "*" else r.server))
       rs == "*" || rs == pyLower (pyStrip serverName))

/-- `_split_candidate_key` (Python `int` parsing modelled by
`String.toInt?`). -/
def splitCandidateKey (key : String) : Option (String × Int) :=
  match (pyStrip key).splitOn ":" with
  | [a, b] =>
    match (pyStrip b).toInt? with
    | some n => some (pyStrip a, n)
    | none => none
  | _ => none

/-- Add to a pin set (sets are modelled as duplicate-free insertion-ordered
lists). -/
def pinSetAdd (s : List String) (k : String) : List String :=
  if k ∈ s then s else s ++ [k]

/-- Per-server body of the non-clear branch of `_manage_candidate_pool`:
walk the pool's keys, apply removal rules first (removal also discards the
pin), then pin-add and pin-remove rules. -/
def managePoolServer (removeRules pinAddRules pinRemoveRules : List RemoveRule)
    (serverName : String) (pool : List (String × CandidateEntry))
    (pinSet : List String) :
    Nat × List (String × CandidateEntry) × List String :=
  pool.foldl
    (fun acc kv =>
      let (removed, kept, pset) := acc
      match splitCandidateKey kv.1 with
      | none => (removed, kept ++ [kv], pset)
      | some (sid, sea) =>
        if matchCandidateRemoveRule serverName sid sea removeRules then
          (removed + 1, kept, pset.filter (· ≠ kv.1))
        else
          let pset1 :=
            if matchCandidateRemoveRule serverName sid sea pinAddRules then
              pinSetAdd pset kv.1
            else pset
          let pset2 :=
            if matchCandidateRemoveRule serverName sid sea pinRemoveRules then
              pset1.filter (· ≠ kv.1)
            else pset1
          (removed, kept ++ [kv], pset2))
    (0, [], pinSet)

/-- `_manage_candidate_pool` on already-parsed rules.  `clearAll := true`
replaces both the whole pool store and the whole pin registry with empty
snapshots and reports the number of erased entries; otherwise removal and
pin rules are applied per server, then wildcard pin rules are replayed over
every known scope. -/
def manageCandidatePool (clearAll : Bool)
    (removeRules pinAddRules pinRemoveRules : List RemoveRule)
    (pools : List (String × List (String × CandidateEntry)))
    (pins : List (String × List String)) :
    Nat × List (String × List (String × CandidateEntry))
      × List (String × List String) :=
  if clearAll then
    ((pools.map (fun kv => kv.2.length)).sum, [], [])
  else
    let afterServers :=
      pools.foldl
        (fun acc kv =>
          let (removed, ps, pn) := acc
          if kv.2.isEmpty then acc
          else
            let pinSet := (lookupKey pn (pyLower kv.1)).getD []
            let r := managePoolServer removeRules pinAddRules pinRemoveRules
              kv.1 kv.2 pinSet
            (removed + r.1, setKey ps kv.1 r.2.1,
              setKey pn (pyLower kv.1) r.2.2))
        (0, pools, pins)
    let (removed, pools1, pins1) := afterServers
    let pins2 :=
      pinAddRules.foldl
        (fun pn rule =>
          let key := rule.seriesId ++ ":" ++ toString rule.season
          if rule.server = "*" then
            (pools1.map Prod.fst).foldl
              (fun pn2 name =>
                setKey pn2 (pyLower name)
                  (pinSetAdd ((lookupKey pn2 (pyLower name)).getD []) key))
              pn
          else
            setKey pn (pyLower rule.server)
              (pinSetAdd ((lookupKey pn (pyLower rule.server)).getD []) key))
        pins1
    let pins3 :=
      pinRemoveRules.foldl
        (fun pn rule =>
          let key := rule.seriesId ++ ":" ++ toString rule.season
          if rule.server = "*" then
            (pn.map Prod.fst).foldl
              (fun pn2 name =>
                setKey pn2 name (((lookupKey pn2 name).getD []).filter (· ≠ key)))
              pn
          else
            setKey pn (pyLower rule.server)
              (((lookupKey pn (pyLower rule.server)).getD []).filter (· ≠ key)))
        pins2
    (removed, pools1, pins3)

/-- The pool-state pipeline of one `_process_emby_service` run, in source
order: prune the loaded pool first, then merge the three observation
sources into it, then apply pins (tier filtering, gating, delegation and
outcome recording mutate individual entries afterwards, and the pool is
saved last). -/
def processPoolPhases (now retentionDays : Int) (pinSet : List String)
    (pool : List (String × CandidateEntry))
    (resumeObs historyObs recentObs : List Observation) :
    List (String × CandidateEntry) :=
  applyPinsToPool pinSet
    (upsertFromRecentAdded now
      (upsertFromHistory now
        (upsertFromResume now
          (pruneCandidatePool now retentionDays pinSet pool) resumeObs)
        historyObs)
      recentObs)

/-- Modelled from the spec: the claimed phase order
load→merge→filter→gate→delegate→record→prune→save, i.e. pruning applied to
the pool *after* the new observations are merged in. -/
def processPoolPhasesSpecOrder (now retentionDays : Int) (pinSet : List String)
    (pool : List (String × CandidateEntry))
    (resumeObs historyObs recentObs : List Observation) :
    List (String × CandidateEntry) :=
  pruneCandidatePool now retentionDays pinSet
    (applyPinsToPool pinSet
      (upsertFromRecentAdded now
        (upsertFromHistory now
          (upsertFromResume now pool resumeObs)
          historyObs)
        recentObs))

/-- Modelled from the spec: C2's literal removal criterion — a non-pinned
entry is removed exactly when its `last_seen_at` timestamp is strictly more
than `retentionDays` days (as a real duration) in the past. -/
def specPruneClaimed (now retentionDays : Int) (pinSet : List String)
    (pool : List (String × CandidateEntry)) : List (String × CandidateEntry) :=
  pool.filterMap fun kv =>
    if kv.1 ∈ pinSet then some (kv.1, { kv.2 with pinned := true })
    else
      let lastSeen := kv.2.last_seen_at.getD now
      if now - lastSeen > retentionDays * 1440 then none
      else some kv

/-- Modelled from the spec: how an observation dict is read back through the
raw-event lens when `_merge_*_series` is applied to its own output — the
merger looks up Emby-cased keys (`SeriesId`, `ParentIndexNumber`, ...),
which an observation (snake_case keys) does not carry, so every `get`
returns `None`. -/
def obsAsRawItem (_o : Observation) : RawItem := {}

lemma lookupKey_setKey {β : Type} (m : List (String × β)) (k : String) (v : β) :
    lookupKey (setKey m k v) k = some v := by
  induction m with
  | nil => simp [setKey, lookupKey]
  | cons kv t ih =>
    by_cases h : kv.1 = k
    · simp [setKey, lookupKey, h]
    · simp [setKey, lookupKey, h, ih]

lemma mem_keys_setKey {β : Type} {m : List (String × β)} {k a : String} {v : β}
    (ha : a ∈ (setKey m k v).map Prod.fst) : a = k ∨ a ∈ m.map Prod.fst := by
  induction m with
  | nil => simpa [setKey] using ha
  | cons kv t ih =>
    by_cases h : kv.1 = k
    · simp only [setKey, if_pos h, List.map_cons, List.mem_cons] at ha
      rcases ha with ha | ha
      · exact .inl ha
      · exact .inr (by simp [ha])
    · simp only [setKey, if_neg h, List.map_cons, List.mem_cons] at ha
      rcases ha with ha | ha
      · exact .inr (by simp [ha])
      · rcases ih ha with h1 | h1
        · exact .inl h1
        · exact .inr (by simp [h1])

lemma nodup_keys_setKey {β : Type} {m : List (String × β)} {k : String} {v : β}
    (h : (m.map Prod.fst).Nodup) : ((setKey m k v).map Prod.fst).Nodup := by
  induction m with
  | nil => simp [setKey]
  | cons kv t ih =>
    by_cases hk : kv.1 = k
    · simp only [setKey, if_pos hk, List.map_cons, List.nodup_cons]
      simp only [List.map_cons, List.nodup_cons] at h
      exact ⟨hk ▸ h.1, h.2⟩
    · simp only [setKey, if_neg hk, List.map_cons, List.nodup_cons]
      simp only [List.map_cons, List.nodup_cons] at h
      refine ⟨fun hmem => ?_, ih h.2⟩
      rcases mem_keys_setKey hmem with h1 | h1
      · exact hk h1
      · exact h.1 h1

/-- Claim C4 — calibration monotone improvement: after
`_update_learned_hit_minutes`, `learned_hit_minutes` is at most its previous
value, or the previous value was absent (in which case the success minute is
written). -/
theorem c4_learned_hit_minutes_monotone (nowMinutes : Int) (old : Option Int) :
    (old = none ∧ updateLearnedHitMinutes nowMinutes old = some nowMinutes)
      ∨ ∃ a b, old = some a ∧ updateLearnedHitMinutes nowMinutes old = some b ∧ b ≤ a := by
  cases old with
  | none => exact .inl ⟨rfl, rfl⟩
  | some a =>
    right
    by_cases h : nowMinutes < a
    · exact ⟨a, nowMinutes, rfl, by simp [updateLearnedHitMinutes, h], le_of_lt h⟩
    · exact ⟨a, a, rfl, by simp [updateLearnedHitMinutes, h], le_refl a⟩

/-- Claim C10 — the `clear_all` management action erases the entire pin
registry together with the candidate pools: the new pin snapshot is the
empty mapping, so every server scope's pin set is empty afterwards. -/
theorem c10_clear_all_erases_pins
    (removeRules pinAddRules pinRemoveRules : List RemoveRule)
    (pools : List (String × List (String × CandidateEntry)))
    (pins : List (String × List String)) :
    manageCandidatePool true removeRules pinAddRules pinRemoveRules pools pins
        = ((pools.map (fun kv => kv.2.length)).sum, [], [])
      ∧ ∀ server : String,
          lookupKey
            (manageCandidatePool true removeRules pinAddRules pinRemoveRules
              pools pins).2.2 server = none := by
  constructor
  · simp [manageCandidatePool]
  · intro server
    simp [manageCandidatePool, lookupKey]

/-- Claim C2, counterexample — an entry strictly older than the retention
window (30 days plus one minute, retention 30 days) is *kept* by
`_prune_candidate_pool`, because the code compares whole days
(`timedelta.days`, floor) rather than the real duration; the claim's literal
removal criterion (`specPruneClaimed`) removes it. -/
theorem c2_prune_counterexample :
    pruneCandidatePool 43201 30 [] [("k", { last_seen_at := some 0 })]
        = [("k", { last_seen_at := some 0 })]
      ∧ specPruneClaimed 43201 30 [] [("k", { last_seen_at := some 0 })] = []
      ∧ (43201 : Int) - 0 > 30 * 1440 := by
  refine ⟨by decide, by decide, by decide⟩

/-- Claim C2, amended — `prune` keeps a pinned key always, re-tagged
`pinned := true` whatever its stored state, and removes a non-pinned entry
exactly when its `last_seen_at` is more than `max retentionDays 1` *whole
days* old (floor of the minute difference; missing `last_seen_at` counts as
seen now): membership in the pruned pool is fully characterised. -/
theorem c2_prune_characterization (now retentionDays : Int)
    (pinSet : List String) (pool : List (String × CandidateEntry))
    (k : String) (e' : CandidateEntry) :
    (k, e') ∈ pruneCandidatePool now retentionDays pinSet pool ↔
      ∃ e, (k, e) ∈ pool ∧
        ((k ∈ pinSet ∧ e' = { e with pinned := true })
          ∨ (k ∉ pinSet
              ∧ Int.fdiv (now - e.last_seen_at.getD now) 1440 ≤ max retentionDays 1
              ∧ e' = e)) := by
  unfold pruneCandidatePool
  rw [List.mem_filterMap]
  constructor
  · rintro ⟨⟨k0, e0⟩, hmem, hf⟩
    unfold pruneKeep at hf
    by_cases hp : k0 ∈ pinSet
    · rw [if_pos hp] at hf
      simp only [Option.some.injEq, Prod.mk.injEq] at hf
      obtain ⟨hk, he⟩ := hf
      subst hk
      exact ⟨e0, hmem, .inl ⟨hp, he.symm⟩⟩
    · rw [if_neg hp] at hf
      by_cases hage :
          Int.fdiv (now - e0.last_seen_at.getD now) 1440 > max retentionDays 1
      · rw [if_pos hage] at hf
        cases hf
      · rw [if_neg hage] at hf
        simp only [Option.some.injEq, Prod.mk.injEq] at hf
        obtain ⟨hk, he⟩ := hf
        subst hk
        exact ⟨e0, hmem, .inr ⟨hp, not_lt.mp hage, he.symm⟩⟩
  · rintro ⟨e, hmem, h⟩
    refine ⟨(k, e), hmem, ?_⟩
    unfold pruneKeep
    rcases h with ⟨hp, he⟩ | ⟨hp, hage, he⟩
    · rw [if_pos hp, he]
    · rw [if_neg hp, if_neg (not_lt.mpr hage), he]

/-- Claim C3, counterexample — applying the resume upsert to an existing
entry *erases* the fields the claim says remain unchanged: the entry is
rebuilt from a fixed field set, so `learned_hit_minutes` (540 before),
`last_track_result` and `next_track_at` all come out absent, while
`last_track_at` is carried over. -/
theorem c3_upsert_counterexample :
    (lookupKey
        (upsertFromResume 100
          [("S1:2",
            { series_id := some "S1", season := some 2,
              learned_hit_minutes := some 540,
              last_track_result := some "已下载",
              next_track_at := some "2024-05-01T09:30:00+00:00",
              last_track_at := some 5 })]
          [{ series_id := "S1", season := some 2, last_played := 50 }])
        "S1:2").map (fun e => (e.learned_hit_minutes, e.last_track_result,
          e.next_track_at, e.last_track_at))
      = some (none, none, none, some 5) := by
  decide

/-- Claim C3, amended — an upsert *rebuilds* the pool entry from a fixed
field set rather than overlaying it: identity comes from the observation's
key, `last_seen_at` is set to now, `last_track_at` / fingerprint / `pinned`
are carried over from the existing entry, the resume source wins for
`series_name` and `user` (falling back to existing values), history and
recent-added keep already-set user/progress fields, and every stored field
outside the set — `learned_hit_minutes`, `last_track_result`,
`next_track_at` — is dropped (absent afterwards), not left unchanged. -/
theorem c3_upsert_rebuild (now : Int) (pool : List (String × CandidateEntry))
    (item : Observation) (sea : Nat) (key : String) (ex : CandidateEntry)
    (hsea : item.season = some sea)
    (hsid : pyStrip item.series_id ≠ "")
    (hkey : key = pyStrip item.series_id ++ ":" ++ toString sea)
    (hex : ex = (lookupKey pool key).getD {}) :
    lookupKey (upsertFromResume now pool [item]) key
        = some
          { series_id := some (pyStrip item.series_id)
            series_name := pyOrStr item.series_name ex.series_name
            season := some sea
            episode := pyOrNat item.episode ex.episode
            user := some (normalizeUserLabel (pyOrStr item.user ex.user))
            last_played :=
              if ex.last_played.isSome then ex.last_played
              else some item.last_played
            playback_ticks :=
              if item.playback_ticks ≠ 0 then item.playback_ticks
              else ex.playback_ticks
            last_seen_at := some now
            last_track_at := ex.last_track_at
            last_track_next_episode := ex.last_track_next_episode
            pinned := ex.pinned }
      ∧ lookupKey (upsertFromHistory now pool [item]) key
        = some
          { series_id := some (pyStrip item.series_id)
            series_name := pyOrStr item.series_name ex.series_name
            season := some sea
            episode := pyOrNat ex.episode item.episode
            user := some (normalizeUserLabel (pyOrStr ex.user item.user))
            last_played :=
              if ex.last_played.isSome then ex.last_played
              else some item.last_played
            playback_ticks :=
              if ex.playback_ticks ≠ 0 then ex.playback_ticks
              else item.playback_ticks
            last_seen_at := some now
            last_track_at := ex.last_track_at
            last_track_next_episode := ex.last_track_next_episode
            pinned := ex.pinned } := by
  constructor
  · show lookupKey (upsertResumeStep now pool item) key = _
    unfold upsertResumeStep
    rw [hsea]
    simp only [if_neg hsid, ← hkey, ← hex, lookupKey_setKey]
  · show lookupKey (upsertHistoryStep now pool item) key = _
    unfold upsertHistoryStep
    rw [hsea]
    simp only [if_neg hsid, ← hkey, ← hex, lookupKey_setKey]

/-- Claim C3, witness — the rebuild characterisation at a concrete pool and
observation. -/
theorem c3_upsert_rebuild_witness :
    lookupKey
        (upsertFromResume 100
          [("S1:2",
            { series_id := some "S1", season := some 2,
              learned_hit_minutes := some 540, last_track_at := some 5,
              playback_ticks := 9 })]
          [{ series_id := "S1", season := some 2, last_played := 50 }])
        "S1:2"
      = some
        { series_id := some "S1", series_name := none, season := some 2,
          episode := none, user := some "未知用户", last_played := some 50,
          playback_ticks := 9, last_seen_at := some 100,
          last_track_at := some 5, last_track_next_episode := none,
          pinned := false } := by
  have h :=
    (c3_upsert_rebuild 100
      [("S1:2",
        { series_id := some "S1", season := some 2,
          learned_hit_minutes := some 540, last_track_at := some 5,
          playback_ticks := 9 })]
      { series_id := "S1", season := some 2, last_played := 50 }
      2 "S1:2"
      { series_id := some "S1", season := some 2,
        learned_hit_minutes := some 540, last_track_at := some 5,
        playback_ticks := 9 }
      (by decide) (by decide) (by decide) (by decide)).1
  simpa using h

/-- Claim C1 — with airtime gating enabled and a TMDB next-episode air
date, the due instant is midnight of the air date in the configured zone
plus the resolved learned offset plus the buffer, where the offset is the
stored `learned_hit_minutes` when present and in range, the download-history
offset when uncalibrated but history is available, and 0 when fully
uncalibrated; the gate denies with exactly that due instant as
`next_due_utc` whenever `now_utc` precedes it (in every calibration state),
and allows once the due instant is reached when the offset is calibrated and
no prior attempt is recorded. -/
theorem c1_airtime_gate_due_instant (cfg : GateConfig) (tier : Option Tier)
    (nowUtc : Int) (nextEp : NextEpisodeHint) (lastTrackAtUtc : Option Int)
    (lastTrackNextEpisode : Option String) (learned histOffset : Option Int)
    (dte : CivilDate)
    (hen : cfg.enableAirtimeGate = true)
    (hair : nextEp.airDate = some dte) :
    resolveNextEpisodeDueAtUtc cfg nextEp learned histOffset
        = some (daysFromCivil dte.y dte.m dte.d * 1440
            + ((resolveLearnedHitOffsetMinutes learned histOffset).1
                + cfg.airtimeBufferMinutes) - cfg.tzOffsetMinutes,
          (resolveLearnedHitOffsetMinutes learned histOffset).2)
      ∧ (∀ v : Int, learned = some v → 0 ≤ v → v ≤ 1439 →
          resolveLearnedHitOffsetMinutes learned histOffset
            = (v, .candidatePool))
      ∧ ((learned = none ∨ ∃ v, learned = some v ∧ (v < 0 ∨ 1439 < v)) →
          ∀ h : Int, histOffset = some h →
            resolveLearnedHitOffsetMinutes learned histOffset
              = (h, .downloadHistory))
      ∧ ((learned = none ∨ ∃ v, learned = some v ∧ (v < 0 ∨ 1439 < v)) →
          histOffset = none →
            resolveLearnedHitOffsetMinutes learned histOffset
              = (0, .defaultDayStart))
      ∧ (nowUtc < daysFromCivil dte.y dte.m dte.d * 1440
            + ((resolveLearnedHitOffsetMinutes learned histOffset).1
                + cfg.airtimeBufferMinutes) - cfg.tzOffsetMinutes →
          shouldRunTrackByAirtimeGate cfg tier nowUtc nextEp lastTrackAtUtc
              lastTrackNextEpisode learned histOffset
            = ⟨false, .beforeDueWindow,
                some (daysFromCivil dte.y dte.m dte.d * 1440
                  + ((resolveLearnedHitOffsetMinutes learned histOffset).1
                      + cfg.airtimeBufferMinutes) - cfg.tzOffsetMinutes)⟩)
      ∧ ((resolveLearnedHitOffsetMinutes learned histOffset).2
            ≠ .defaultDayStart →
          daysFromCivil dte.y dte.m dte.d * 1440
              + ((resolveLearnedHitOffsetMinutes learned histOffset).1
                  + cfg.airtimeBufferMinutes) - cfg.tzOffsetMinutes ≤ nowUtc →
          shouldRunTrackByAirtimeGate cfg tier nowUtc nextEp none
              lastTrackNextEpisode learned histOffset
            = ⟨true, .dueWindowReached,
                some (daysFromCivil dte.y dte.m dte.d * 1440
                  + ((resolveLearnedHitOffsetMinutes learned histOffset).1
                      + cfg.airtimeBufferMinutes) - cfg.tzOffsetMinutes)⟩) := by
  have hres : resolveNextEpisodeDueAtUtc cfg nextEp learned histOffset
      = some (daysFromCivil dte.y dte.m dte.d * 1440
          + ((resolveLearnedHitOffsetMinutes learned histOffset).1
              + cfg.airtimeBufferMinutes) - cfg.tzOffsetMinutes,
        (resolveLearnedHitOffsetMinutes learned histOffset).2) := by
    unfold resolveNextEpisodeDueAtUtc
    rw [hair]
  refine ⟨hres, ?_, ?_, ?_, fun hlt => ?_, fun hnote hge => ?_⟩
  · intro v hv h0 h1
    subst hv
    simp [resolveLearnedHitOffsetMinutes, h0, h1]
  · rintro (huncal | ⟨v, hv, hrange⟩) h hh
    · subst huncal; subst hh
      rfl
    · subst hv; subst hh
      have hout : ¬ (0 ≤ v ∧ v ≤ 1439) := by
        rcases hrange with h1 | h1 <;> omega
      simp [resolveLearnedHitOffsetMinutes, hout]
  · rintro (huncal | ⟨v, hv, hrange⟩) hh
    · subst huncal; subst hh
      rfl
    · subst hv; subst hh
      have hout : ¬ (0 ≤ v ∧ v ≤ 1439) := by
        rcases hrange with h1 | h1 <;> omega
      simp [resolveLearnedHitOffsetMinutes, hout]
  · unfold shouldRunTrackByAirtimeGate
    rw [hen, hres]
    simp [hlt]
  · unfold shouldRunTrackByAirtimeGate
    rw [hen, hres]
    simp [not_lt.mpr hge, hnote]

/-- Claim C1, witness — the spec scenario (air date 2024-05-01, learned 540,
buffer 30 minutes, zone UTC: due 2024-05-01T09:30:00Z, deny at 09:00Z, allow
at 10:00Z with no prior attempt), plus the fully uncalibrated case resolving
to offset 0 and still denying before its day-start-plus-buffer due
instant. -/
theorem c1_airtime_gate_due_instant_witness :
    shouldRunTrackByAirtimeGate
        { enableAirtimeGate := true, airtimeBufferMinutes := 30,
          tzOffsetMinutes := 0 } (some .hot)
        (daysFromCivil 2024 5 1 * 1440 + 540)
        { seasonNumber := some 2, episodeNumber := some 5,
          airDate := some ⟨2024, 5, 1⟩ } none none (some 540) none
        = ⟨false, .beforeDueWindow,
            some (daysFromCivil 2024 5 1 * 1440
              + ((resolveLearnedHitOffsetMinutes (some 540) none).1 + 30) - 0)⟩
      ∧ shouldRunTrackByAirtimeGate
        { enableAirtimeGate := true, airtimeBufferMinutes := 30,
          tzOffsetMinutes := 0 } (some .hot)
        (daysFromCivil 2024 5 1 * 1440 + 600)
        { seasonNumber := some 2, episodeNumber := some 5,
          airDate := some ⟨2024, 5, 1⟩ } none none (some 540) none
        = ⟨true, .dueWindowReached,
            some (daysFromCivil 2024 5 1 * 1440
              + ((resolveLearnedHitOffsetMinutes (some 540) none).1 + 30) - 0)⟩
      ∧ resolveLearnedHitOffsetMinutes (none : Option Int) none
          = (0, .defaultDayStart)
      ∧ shouldRunTrackByAirtimeGate
        { enableAirtimeGate := true, airtimeBufferMinutes := 30,
          tzOffsetMinutes := 0 } (some .hot)
        (daysFromCivil 2024 5 1 * 1440 + 15)
        { seasonNumber := some 2, episodeNumber := some 5,
          airDate := some ⟨2024, 5, 1⟩ } none none none none
        = ⟨false, .beforeDueWindow,
            some (daysFromCivil 2024 5 1 * 1440
              + ((resolveLearnedHitOffsetMinutes none none).1 + 30) - 0)⟩ := by
  refine ⟨?_, ?_, ?_, ?_⟩
  · exact (c1_airtime_gate_due_instant
      { enableAirtimeGate := true, airtimeBufferMinutes := 30,
        tzOffsetMinutes := 0 } (some .hot)
      (daysFromCivil 2024 5 1 * 1440 + 540)
      { seasonNumber := some 2, episodeNumber := some 5,
        airDate := some ⟨2024, 5, 1⟩ } none none (some 540) none
      ⟨2024, 5, 1⟩ rfl rfl).2.2.2.2.1 (by decide)
  · exact (c1_airtime_gate_due_instant
      { enableAirtimeGate := true, airtimeBufferMinutes := 30,
        tzOffsetMinutes := 0 } (some .hot)
      (daysFromCivil 2024 5 1 * 1440 + 600)
      { seasonNumber := some 2, episodeNumber := some 5,
        airDate := some ⟨2024, 5, 1⟩ } none none (some 540) none
      ⟨2024, 5, 1⟩ rfl rfl).2.2.2.2.2 (by decide) (by decide)
  · exact (c1_airtime_gate_due_instant
      { enableAirtimeGate := true, airtimeBufferMinutes := 30,
        tzOffsetMinutes := 0 } (some .hot)
      (daysFromCivil 2024 5 1 * 1440 + 15)
      { seasonNumber := some 2, episodeNumber := some 5,
        airDate := some ⟨2024, 5, 1⟩ } none none none none
      ⟨2024, 5, 1⟩ rfl rfl).2.2.2.1 (Or.inl rfl) rfl
  · exact (c1_airtime_gate_due_instant
      { enableAirtimeGate := true, airtimeBufferMinutes := 30,
        tzOffsetMinutes := 0 } (some .hot)
      (daysFromCivil 2024 5 1 * 1440 + 15)
      { seasonNumber := some 2, episodeNumber := some 5,
        airDate := some ⟨2024, 5, 1⟩ } none none none none
      ⟨2024, 5, 1⟩ rfl rfl).2.2.2.2.1 (by decide)


/-- Claim C5, counterexample — an *uncalibrated* candidate (no stored
`learned_hit_minutes`, no download-history offset) whose due instant has
passed, whose stored fingerprint equals the current next-episode identity
and whose last attempt was at the due instant is nevertheless *allowed*
once the fixed tier interval elapses: the day-start fallback branch never
consults the already-serviced check. -/
theorem c5_gate_counterexample :
    (shouldRunTrackByAirtimeGate
        { enableAirtimeGate := true, airtimeBufferMinutes := 30,
          tzOffsetMinutes := 0, accelerateIntervalMinutes := 10 }
        (some .hot) (daysFromCivil 2024 5 1 * 1440 + 45)
        { seasonNumber := some 2, episodeNumber := some 5,
          airDate := some ⟨2024, 5, 1⟩ }
        (some (daysFromCivil 2024 5 1 * 1440 + 30))
        (some "2:5:2024-05-01") none none).allow = true
      ∧ resolveNextEpisodeDueAtUtc
          { enableAirtimeGate := true, airtimeBufferMinutes := 30,
            tzOffsetMinutes := 0, accelerateIntervalMinutes := 10 }
          { seasonNumber := some 2, episodeNumber := some 5,
            airDate := some ⟨2024, 5, 1⟩ } none none
        = some (daysFromCivil 2024 5 1 * 1440 + 30, .defaultDayStart)
      ∧ nextEpisodeKey
          { seasonNumber := some 2, episodeNumber := some 5,
            airDate := some ⟨2024, 5, 1⟩ } = "2:5:2024-05-01"
      ∧ (daysFromCivil 2024 5 1 * 1440 + 30 : Int)
          ≤ daysFromCivil 2024 5 1 * 1440 + 45
      ∧ (daysFromCivil 2024 5 1 * 1440 + 30 : Int)
          ≤ daysFromCivil 2024 5 1 * 1440 + 30 := by
  refine ⟨by decide, by decide, by decide, by decide, by decide⟩

/-- Claim C5, amended — once the due instant has passed, a matching stored
`last_track_next_episode` fingerprint together with a last attempt at or
after the due instant makes the gate deny (window already serviced) —
*provided* the due offset came from a calibrated source (stored
`learned_hit_minutes` or download history); in the uncalibrated day-start
fallback the fixed tier interval governs instead and the serviced check is
skipped. -/
theorem c5_window_already_serviced (cfg : GateConfig) (tier : Option Tier)
    (nowUtc : Int) (nextEp : NextEpisodeHint)
    (lastTrackNextEpisode : Option String) (learned histOffset : Option Int)
    (due lt : Int) (note : OffsetNote)
    (hen : cfg.enableAirtimeGate = true)
    (hdue : resolveNextEpisodeDueAtUtc cfg nextEp learned histOffset
        = some (due, note))
    (hnote : note ≠ .defaultDayStart)
    (hpassed : due ≤ nowUtc)
    (hkey : pyStrip (lastTrackNextEpisode.getD "") = nextEpisodeKey nextEp)
    (hlt : due ≤ lt) :
    shouldRunTrackByAirtimeGate cfg tier nowUtc nextEp (some lt)
        lastTrackNextEpisode learned histOffset
      = ⟨false, .windowAlreadyServiced, some due⟩ := by
  unfold shouldRunTrackByAirtimeGate
  rw [hen, hdue]
  simp [not_lt.mpr hpassed, hnote, hkey, hlt]

/-- Claim C5, witness — the serviced-window denial at a calibrated concrete
candidate: learned 540, due 2024-05-01T09:30:00Z, fingerprint matching, last
attempt at the due instant, now one hour later. -/
theorem c5_window_already_serviced_witness :
    shouldRunTrackByAirtimeGate
        { enableAirtimeGate := true, airtimeBufferMinutes := 30,
          tzOffsetMinutes := 0 } (some .hot)
        (daysFromCivil 2024 5 1 * 1440 + 630)
        { seasonNumber := some 2, episodeNumber := some 5,
          airDate := some ⟨2024, 5, 1⟩ }
        (some (daysFromCivil 2024 5 1 * 1440 + 570))
        (some "2:5:2024-05-01") (some 540) none
      = ⟨false, .windowAlreadyServiced,
          some (daysFromCivil 2024 5 1 * 1440 + 570)⟩ := by
  exact c5_window_already_serviced
    { enableAirtimeGate := true, airtimeBufferMinutes := 30,
      tzOffsetMinutes := 0 } (some .hot)
    (daysFromCivil 2024 5 1 * 1440 + 630)
    { seasonNumber := some 2, episodeNumber := some 5,
      airDate := some ⟨2024, 5, 1⟩ }
    (some "2:5:2024-05-01") (some 540) none
    (daysFromCivil 2024 5 1 * 1440 + 570)
    (daysFromCivil 2024 5 1 * 1440 + 570) .candidatePool
    rfl (by decide) (by decide) (by decide) (by decide) (by decide)

lemma resumeMergeStep_empty (now resumeDays : Int) (i : RawItem)
    (hv : rawItemValid i = true) (hw : windowDrops now resumeDays i = false) :
    resumeMergeStep now resumeDays [] i = [(rawItemKey i, resumeObsOf i)] := by
  simp [resumeMergeStep, hv, hw, lookupKey, setKey]

lemma resumeMergeStep_single (now resumeDays : Int) (i : RawItem)
    (k : String) (o : Observation)
    (hv : rawItemValid i = true) (hw : windowDrops now resumeDays i = false)
    (hk : rawItemKey i = k) :
    resumeMergeStep now resumeDays [(k, o)] i
      = if i.lastPlayed.getD dtMin > o.last_played
            ∨ (i.lastPlayed.getD dtMin = o.last_played
                ∧ i.playbackTicks > o.playback_ticks)
        then [(k, resumeObsOf i)] else [(k, o)] := by
  have hl : lookupKey [(k, o)] k = some o := by simp [lookupKey]
  have hs : setKey [(k, o)] k (resumeObsOf i) = [(k, resumeObsOf i)] := by
    simp [setKey]
  simp only [resumeMergeStep, hv, hw, Bool.not_true, Bool.false_eq_true,
    if_false, hk, hl, hs, Option.isNone_some, Option.map_some',
    Option.getD_some, Bool.false_eq_true, false_or, Bool.or_eq_true,
    Bool.and_eq_true, decide_eq_true_eq]

lemma historyMergeStep_empty (now resumeDays : Int) (i : RawItem)
    (hv : rawItemValid i = true) (hw : windowDrops now resumeDays i = false) :
    historyMergeStep now resumeDays [] i = [(rawItemKey i, historyObsOf i)] := by
  simp [historyMergeStep, hv, hw, lookupKey, setKey]

lemma historyMergeStep_single (now resumeDays : Int) (i : RawItem)
    (k : String) (o : Observation)
    (hv : rawItemValid i = true) (hw : windowDrops now resumeDays i = false)
    (hk : rawItemKey i = k) :
    historyMergeStep now resumeDays [(k, o)] i
      = if i.lastPlayed.getD dtMin ≥ o.last_played
        then [(k, historyObsOf i)] else [(k, o)] := by
  have hl : lookupKey [(k, o)] k = some o := by simp [lookupKey]
  have hs : setKey [(k, o)] k (historyObsOf i) = [(k, historyObsOf i)] := by
    simp [setKey]
  simp only [historyMergeStep, hv, hw, Bool.not_true, Bool.false_eq_true,
    if_false, hk, hl, hs, Option.isNone_some, Option.map_some',
    Option.getD_some, Bool.false_eq_true, false_or, Bool.or_eq_true,
    decide_eq_true_eq]

/-- Claim C6, counterexample — two history events with the same key and
*equal* `last_played`, the first with the larger `playback_ticks`: the
history merger keeps the *second* event (its `>=` replacement never compares
playback ticks), while the claim requires the larger-ticks event to win. -/
theorem c6_merge_counterexample :
    mergeHistorySeries 1000 30
        [{ seriesId := some "S1", season := some 2, episode := some 3,
           lastPlayed := some 1000, playbackTicks := 100 },
         { seriesId := some "S1", season := some 2, episode := some 4,
           lastPlayed := some 1000, playbackTicks := 5 }]
      = [historyObsOf
          { seriesId := some "S1", season := some 2, episode := some 4,
            lastPlayed := some 1000, playbackTicks := 5 }]
      ∧ (mergeHistorySeries 1000 30
          [{ seriesId := some "S1", season := some 2, episode := some 3,
             lastPlayed := some 1000, playbackTicks := 100 },
           { seriesId := some "S1", season := some 2, episode := some 4,
             lastPlayed := some 1000, playbackTicks := 5 }]).map
            (fun o => o.playback_ticks) = [5]
      ∧ rawItemKey
          { seriesId := some "S1", season := some 2, episode := some 3,
            lastPlayed := some 1000, playbackTicks := 100 }
        = rawItemKey
          { seriesId := some "S1", season := some 2, episode := some 4,
            lastPlayed := some 1000, playbackTicks := 5 }
      ∧ (100 : Int) > 5 := by
  refine ⟨by decide, by decide, by decide, by decide⟩

/-- Claim C6, amended — for a pair of raw events with the same key that both
survive the validity and recency filters: the *resume* merger keeps the
event with the later `last_played` (unknown = minimum), breaking equal
timestamps by larger `playback_ticks` (first event on a full tie); the
*history* merger keeps the later-timestamped event but resolves equal
timestamps by keeping the *later-listed* event, never consulting
`playback_ticks`. -/
theorem c6_pair_reconciliation (now resumeDays : Int) (i1 i2 : RawItem)
    (hv1 : rawItemValid i1 = true) (hv2 : rawItemValid i2 = true)
    (hk : rawItemKey i2 = rawItemKey i1)
    (hw1 : windowDrops now resumeDays i1 = false)
    (hw2 : windowDrops now resumeDays i2 = false) :
    mergeResumeSeries now resumeDays [i1, i2]
        = (if i2.lastPlayed.getD dtMin > i1.lastPlayed.getD dtMin
              ∨ (i2.lastPlayed.getD dtMin = i1.lastPlayed.getD dtMin
                  ∧ i2.playbackTicks > i1.playbackTicks)
           then [resumeObsOf i2] else [resumeObsOf i1])
      ∧ mergeHistorySeries now resumeDays [i1, i2]
        = (if i2.lastPlayed.getD dtMin ≥ i1.lastPlayed.getD dtMin
           then [historyObsOf i2] else [historyObsOf i1]) := by
  constructor
  · rw [mergeResumeSeries, mergeResumeMap]
    simp only [List.foldl_cons, List.foldl_nil]
    rw [resumeMergeStep_empty now resumeDays i1 hv1 hw1,
      resumeMergeStep_single now resumeDays i2 (rawItemKey i1) (resumeObsOf i1)
        hv2 hw2 hk]
    rw [apply_ite (List.map Prod.snd)]
    simp [resumeObsOf]
  · rw [mergeHistorySeries]
    simp only [List.foldl_cons, List.foldl_nil]
    rw [historyMergeStep_empty now resumeDays i1 hv1 hw1,
      historyMergeStep_single now resumeDays i2 (rawItemKey i1) (historyObsOf i1)
        hv2 hw2 hk]
    rw [apply_ite (List.map Prod.snd)]
    simp [historyObsOf]

/-- Claim C6, witness — the pair-reconciliation characterisation at two
concrete events with equal timestamps (the resume merger breaks the tie by
ticks; the history merger keeps the later-listed event). -/
theorem c6_pair_reconciliation_witness :
    mergeResumeSeries 1000 0
        [{ seriesId := some "S1", season := some 2, lastPlayed := some 100,
           playbackTicks := 3 },
         { seriesId := some "S1", season := some 2, lastPlayed := some 100,
           playbackTicks := 9 }]
        = (if ((some 100 : Option Int).getD dtMin
                > (some 100 : Option Int).getD dtMin
              ∨ ((some 100 : Option Int).getD dtMin
                  = (some 100 : Option Int).getD dtMin ∧ (9 : Int) > 3))
           then [resumeObsOf
              { seriesId := some "S1", season := some 2,
                lastPlayed := some 100, playbackTicks := 9 }]
           else [resumeObsOf
              { seriesId := some "S1", season := some 2,
                lastPlayed := some 100, playbackTicks := 3 }])
      ∧ mergeHistorySeries 1000 0
        [{ seriesId := some "S1", season := some 2, lastPlayed := some 100,
           playbackTicks := 3 },
         { seriesId := some "S1", season := some 2, lastPlayed := some 100,
           playbackTicks := 9 }]
        = (if ((some 100 : Option Int).getD dtMin
                ≥ (some 100 : Option Int).getD dtMin)
           then [historyObsOf
              { seriesId := some "S1", season := some 2,
                lastPlayed := some 100, playbackTicks := 9 }]
           else [historyObsOf
              { seriesId := some "S1", season := some 2,
                lastPlayed := some 100, playbackTicks := 3 }]) := by
  exact c6_pair_reconciliation 1000 0
    { seriesId := some "S1", season := some 2, lastPlayed := some 100,
      playbackTicks := 3 }
    { seriesId := some "S1", season := some 2, lastPlayed := some 100,
      playbackTicks := 9 }
    (by decide) (by decide) (by decide) (by decide) (by decide)

lemma resumeMergeStep_invalid (now resumeDays : Int)
    (m : List (String × Observation)) (i : RawItem)
    (h : rawItemValid i = false) :
    resumeMergeStep now resumeDays m i = m := by
  simp [resumeMergeStep, h]

lemma foldl_resumeMergeStep_obsAsRaw (now resumeDays : Int)
    (l : List Observation) :
    ∀ m : List (String × Observation),
      (l.map obsAsRawItem).foldl (resumeMergeStep now resumeDays) m = m := by
  induction l with
  | nil => intro m; rfl
  | cons o t ih =>
    intro m
    simp only [List.map_cons, List.foldl_cons]
    rw [resumeMergeStep_invalid now resumeDays m (obsAsRawItem o) rfl]
    exact ih m

lemma nodup_keys_resumeMergeStep (now resumeDays : Int)
    (m : List (String × Observation)) (i : RawItem)
    (h : (m.map Prod.fst).Nodup) :
    ((resumeMergeStep now resumeDays m i).map Prod.fst).Nodup := by
  rcases Bool.eq_false_or_eq_true (rawItemValid i) with h1 | h1
  · rcases Bool.eq_false_or_eq_true (windowDrops now resumeDays i) with h2 | h2
    · have hstep : resumeMergeStep now resumeDays m i = m := by
        unfold resumeMergeStep
        rw [h1, h2]
        simp
      rw [hstep]; exact h
    · have hstep : resumeMergeStep now resumeDays m i = m
          ∨ resumeMergeStep now resumeDays m i
            = setKey m (rawItemKey i) (resumeObsOf i) := by
        unfold resumeMergeStep
        rw [h1, h2]
        simp only [Bool.not_true, Bool.false_eq_true, if_false]
        split
        · exact .inr rfl
        · exact .inl rfl
      rcases hstep with he | he
      · rw [he]; exact h
      · rw [he]; exact nodup_keys_setKey h
  · rw [resumeMergeStep_invalid now resumeDays m i h1]
    exact h

lemma nodup_keys_foldl_resumeMergeStep (now resumeDays : Int)
    (items : List RawItem) :
    ∀ m : List (String × Observation), (m.map Prod.fst).Nodup →
      ((items.foldl (resumeMergeStep now resumeDays) m).map Prod.fst).Nodup := by
  induction items with
  | nil => intro m h; exact h
  | cons i t ih =>
    intro m h
    simp only [List.foldl_cons]
    exact ih _ (nodup_keys_resumeMergeStep now resumeDays m i h)

/-- Claim C9, counterexample — `merge(merge(x)) ≠ merge(x)`: the merger's
output uses snake_case field names while its input is read through
Emby-cased keys, so re-applying the resume merger to its own output drops
every observation and returns the empty list, not the original output. -/
theorem c9_idempotence_counterexample :
    (mergeResumeSeries 1000 30
        [{ seriesId := some "S1", season := some 2, lastPlayed := some 1000,
           playbackTicks := 7 }]).length = 1
      ∧ mergeResumeSeries 1000 30
          ((mergeResumeSeries 1000 30
            [{ seriesId := some "S1", season := some 2,
               lastPlayed := some 1000, playbackTicks := 7 }]).map
              obsAsRawItem) = []
      ∧ mergeResumeSeries 1000 30
          ((mergeResumeSeries 1000 30
            [{ seriesId := some "S1", season := some 2,
               lastPlayed := some 1000, playbackTicks := 7 }]).map
              obsAsRawItem)
        ≠ mergeResumeSeries 1000 30
            [{ seriesId := some "S1", season := some 2,
               lastPlayed := some 1000, playbackTicks := 7 }] := by
  refine ⟨by decide, by decide, by decide⟩

/-- Claim C9, amended — the merger is a pure function (identical inputs give
identical outputs) and its output is already fully reconciled: it carries at
most one observation per (series, season) key; but literally re-applying the
merger to its own output yields the empty list for *every* input, because
the output's snake_case field names never match the Emby-cased keys the
merger reads, so `merge(merge(x)) = merge(x)` fails for every `x` with a
non-empty merge. -/
theorem c9_merge_output_reconciled (now resumeDays : Int) (x : List RawItem) :
    ((mergeResumeMap now resumeDays x).map Prod.fst).Nodup
      ∧ mergeResumeSeries now resumeDays
          ((mergeResumeSeries now resumeDays x).map obsAsRawItem) = [] := by
  constructor
  · exact nodup_keys_foldl_resumeMergeStep now resumeDays x [] (by simp)
  · unfold mergeResumeSeries mergeResumeMap
    rw [foldl_resumeMergeStep_obsAsRaw]
    rfl

/-- Claim C7, counterexample — merging before pruning is observably
different from the code's prune-before-merge order: a retention-expired
entry that is re-observed in the same run is pruned first and re-created
fresh by the code (its `last_track_at` is lost), whereas the claimed order
would keep its tracking history. -/
theorem c7_phase_order_counterexample :
    processPoolPhases 144000 30 []
        [("S1:2", { series_id := some "S1", season := some 2,
                    last_seen_at := some 0, last_track_at := some 77 })]
        [{ series_id := "S1", season := some 2, last_played := 50 }] [] []
      ≠ processPoolPhasesSpecOrder 144000 30 []
        [("S1:2", { series_id := some "S1", season := some 2,
                    last_seen_at := some 0, last_track_at := some 77 })]
        [{ series_id := "S1", season := some 2, last_played := 50 }] [] []
      ∧ (lookupKey
          (processPoolPhases 144000 30 []
            [("S1:2", { series_id := some "S1", season := some 2,
                        last_seen_at := some 0, last_track_at := some 77 })]
            [{ series_id := "S1", season := some 2, last_played := 50 }] [] [])
          "S1:2").map (fun e2 => e2.last_track_at) = some none
      ∧ (lookupKey
          (processPoolPhasesSpecOrder 144000 30 []
            [("S1:2", { series_id := some "S1", season := some 2,
                        last_seen_at := some 0, last_track_at := some 77 })]
            [{ series_id := "S1", season := some 2, last_played := 50 }] [] [])
          "S1:2").map (fun e2 => e2.last_track_at) = some (some 77) := by
  refine ⟨by decide, by decide, by decide⟩

/-- Claim C7, amended — one scheduler run applies the pool phases in the
order load, *prune*, merge, filter, gate, delegate, record, save: pruning
happens right after load and *before* the new observations are merged in
(and before the pool is saved), so a retention-expired entry observed in the
same run is re-created fresh (losing `last_track_at`), while the merge-first
order the spec states would preserve it. -/
theorem c7_prune_runs_before_merge (now retentionDays : Int) (k : String)
    (e : CandidateEntry) (item : Observation) (sea : Nat)
    (hsea : item.season = some sea)
    (hsid : pyStrip item.series_id ≠ "")
    (hkey : k = pyStrip item.series_id ++ ":" ++ toString sea)
    (hstale : Int.fdiv (now - e.last_seen_at.getD now) 1440
        > max retentionDays 1) :
    (lookupKey (processPoolPhases now retentionDays [] [(k, e)] [item] [] [])
        k).map (fun e2 => e2.last_track_at) = some none
      ∧ (lookupKey
          (processPoolPhasesSpecOrder now retentionDays [] [(k, e)] [item] [] [])
          k).map (fun e2 => e2.last_track_at) = some e.last_track_at := by
  subst hkey
  have hmax : ¬ ((0 : Int) > max retentionDays 1) :=
    not_lt.mpr (le_trans zero_le_one (le_max_right _ _))
  constructor
  · have hkeep : pruneKeep now retentionDays []
        (pyStrip item.series_id ++ ":" ++ toString sea, e) = none := by
      unfold pruneKeep
      rw [if_neg (List.not_mem_nil _), if_pos hstale]
    have hprune : pruneCandidatePool now retentionDays []
        [(pyStrip item.series_id ++ ":" ++ toString sea, e)] = [] := by
      simp [pruneCandidatePool, hkeep]
    unfold processPoolPhases
    rw [hprune]
    unfold upsertFromRecentAdded upsertFromHistory upsertFromResume
    simp only [List.foldl_cons, List.foldl_nil]
    unfold upsertResumeStep
    rw [hsea]
    simp [if_neg hsid, applyPinsToPool, setKey, lookupKey]
  · unfold processPoolPhasesSpecOrder
    unfold upsertFromRecentAdded upsertFromHistory upsertFromResume
    simp only [List.foldl_cons, List.foldl_nil]
    unfold upsertResumeStep
    rw [hsea]
    simp [if_neg hsid, applyPinsToPool, setKey, lookupKey,
      pruneCandidatePool, pruneKeep, sub_self, Int.zero_fdiv, hmax]

/-- Claim C7, witness — the order contrast at a concrete stale entry with a
matching observation. -/
theorem c7_prune_runs_before_merge_witness :
    (lookupKey
        (processPoolPhases 144000 30 []
          [("S1:2", { series_id := some "S1", season := some 2,
                      last_seen_at := some 0, last_track_at := some 77 })]
          [{ series_id := "S1", season := some 2, last_played := 50 }] [] [])
        "S1:2").map (fun e2 => e2.last_track_at) = some none
      ∧ (lookupKey
          (processPoolPhasesSpecOrder 144000 30 []
            [("S1:2", { series_id := some "S1", season := some 2,
                        last_seen_at := some 0, last_track_at := some 77 })]
            [{ series_id := "S1", season := some 2, last_played := 50 }] [] [])
          "S1:2").map (fun e2 => e2.last_track_at) = some (some 77) := by
  exact c7_prune_runs_before_merge 144000 30 "S1:2"
    { series_id := some "S1", season := some 2, last_seen_at := some 0,
      last_track_at := some 77 }
    { series_id := "S1", season := some 2, last_played := 50 } 2
    (by decide) (by decide) (by decide) (by decide)

/-- Claim C8, counterexample — a second invocation while the guard is held
does return a busy outcome without running the body, but it *does* touch
persisted state: `_append_log` saves the busy line into the persisted log
store, so the state after the call differs from the state before. -/
theorem c8_busy_counterexample :
    (processEntry true 200 "busy" "end" "stats" (fun s => { state := s })
        { lockHeld := true, logs := ["x"] }).1 = .busy
      ∧ (processEntry true 200 "busy" "end" "stats" (fun s => { state := s })
          { lockHeld := true, logs := ["x"] }).2
        ≠ { lockHeld := true, logs := ["x"] }
      ∧ (processEntry true 200 "busy" "end" "stats" (fun s => { state := s })
          { lockHeld := true, logs := ["x"] }).2.logs ≠ ["x"] := by
  refine ⟨by decide, by decide, by decide⟩

/-- Claim C8, amended — when the guard is already held, the entry point
returns a busy outcome without executing the guarded body and leaves
candidate pools, pins, `last_stats` and the guard itself untouched, but it
appends the busy line to the *persisted* log store; when the guard is free,
it is acquired and then released on every exit path, whatever the body does
— including when the body ends with an exception. -/
theorem c8_single_flight_guard (enabled : Bool) (maxRecords : Nat)
    (busyLine endLine statsLine : String) (body : PluginState → BodyResult)
    (st : PluginState) :
    (st.lockHeld = true → enabled = true →
        processEntry enabled maxRecords busyLine endLine statsLine body st
          = (.busy,
              { st with logs := appendLogTrunc maxRecords st.logs busyLine }))
      ∧ (st.lockHeld = false → enabled = true →
          (processEntry enabled maxRecords busyLine endLine statsLine body
              st).2.lockHeld = false) := by
  constructor
  · intro hl he
    simp [processEntry, he, hl]
  · intro hl he
    simp [processEntry, he, hl]

/-- Claim C8, witness — the guard contrast at concrete states: busy path
with full frame on pools/pins/stats, and release after a body that raises. -/
theorem c8_single_flight_guard_witness :
    processEntry true 200 "busy" "end" "stats"
        (fun s => { state := s, exc := some "boom" })
        { lockHeld := true, logs := ["x"] }
      = (.busy,
          { lockHeld := true,
            logs := appendLogTrunc 200 ["x"] "busy" })
      ∧ (processEntry true 200 "busy" "end" "stats"
          (fun s => { state := s, exc := some "boom" })
          { lockHeld := false }).2.lockHeld = false := by
  constructor
  · exact (c8_single_flight_guard true 200 "busy" "end" "stats"
      (fun s => { state := s, exc := some "boom" })
      { lockHeld := true, logs := ["x"] }).1 rfl rfl
  · exact (c8_single_flight_guard true 200 "busy" "end" "stats"
      (fun s => { state := s, exc := some "boom" })
      { lockHeld := false }).2 rfl rfl
